/-
  Verification of the frame-lifecycle and synchronization core of a
  Vulkan-based real-time rendering engine (vk_engine.cpp / vk_engine.h).

  The development shallowly embeds the engine's frame loop: machine
  integers are modelled as Nat with explicit reduction mod 2^64 where the
  source uses uint64_t, Vulkan handles as Nat (0 = VK_NULL_HANDLE),
  device-side calls (acquire, present, swapchain build) as oracle inputs,
  and observable side effects as an explicit trace of actions.
-/
import Mathlib

namespace VkViz

/-- `FRAME_OVERLAP` from vk_engine.h: fixed number of in-flight frame slots. -/
def FRAME_OVERLAP : Nat := 2

/-- Modulus of a `uint64_t` counter. -/
def UINT64_MOD : Nat := 2 ^ 64

/-- The VkResult statuses distinguished by the frame loop: success,
`VK_SUBOPTIMAL_KHR`, `VK_ERROR_OUT_OF_DATE_KHR`, and a bucket for every
other non-success status (all treated alike by `VK_CHECK`, which throws). -/
inductive VkResult where
  | success
  | suboptimalKHR
  | errorOutOfDateKHR
  | errorOther
deriving DecidableEq, Repr

/-- 2D extent (VkExtent2D). -/
structure Extent2D where
  width : Nat
  height : Nat
deriving DecidableEq, Repr

/-- Image formats the engine creates. -/
inductive Format where
  | undefined
  | b8g8r8a8Unorm
  | r16g16b16a16Sfloat
  | d32Sfloat
deriving DecidableEq, Repr

/-- `AllocatedImage` from vk_engine.h: image handle, view handle, extent
and format (the VmaAllocation handle carries no observable state here). -/
structure AllocatedImage where
  image : Nat := 0
  imageView : Nat := 0
  extentW : Nat := 0
  extentH : Nat := 0
  format : Format := .undefined
deriving DecidableEq, Repr

/-- Per-slot `FrameData` from vk_engine.h (command pool omitted: it has no
observable state beyond the buffer it backs). `submitted_timeline_value`
is 0 iff the slot was never submitted. -/
structure FrameData where
  mainCommandBuffer : Nat := 0
  imageAcquired : Nat := 0
  renderComplete : Nat := 0
  submitted_timeline_value : Nat := 0
deriving DecidableEq, Repr

/-- The two-slot ring `frames_[FRAME_OVERLAP]`. -/
structure Frames where
  f0 : FrameData
  f1 : FrameData
deriving DecidableEq, Repr

/-- Read slot `i` (the caller always passes `frame_number % FRAME_OVERLAP`). -/
def Frames.get (fs : Frames) (i : Nat) : FrameData :=
  if i = 0 then fs.f0 else fs.f1

/-- Write slot `i`. -/
def Frames.set (fs : Frames) (i : Nat) (fd : FrameData) : Frames :=
  if i = 0 then { fs with f0 := fd } else { fs with f1 := fd }

/-- `SwapchainSystem` from vk_engine.h. -/
structure SwapchainSystem where
  swapchain : Nat := 0
  swapchain_image_format : Format := .undefined
  swapchain_extent : Extent2D := ⟨0, 0⟩
  swapchain_images : List Nat := []
  swapchain_image_views : List Nat := []
  drawable_image : AllocatedImage := {}
  depth_image : AllocatedImage := {}
deriving DecidableEq, Repr

/-- The mutable `state_` record (EngineState in vk_engine.h). `dt_sec` and
`time_sec` are doubles in the source; the engine only copies them, so they
are carried as opaque Nat-coded values. -/
structure EngineState where
  initialized : Bool := false
  running : Bool := false
  should_rendering : Bool := false
  resize_requested : Bool := false
  minimized : Bool := false
  focused : Bool := false
  frame_number : Nat := 0
  dt_sec : Nat := 0
  time_sec : Nat := 0
deriving DecidableEq, Repr

/-- The engine object: `state_`, `swapchain_`, the frame-slot ring, the
timeline counter `timeline_value_`, and presence flags for the device,
renderer plugin and UI system pointers. -/
structure Engine where
  state : EngineState := {}
  swapchain : SwapchainSystem := {}
  frames : Frames := ⟨{}, {}⟩
  timeline_value : Nat := 0
  hasDevice : Bool := true
  hasRenderer : Bool := true
  hasUI : Bool := true
deriving DecidableEq, Repr

/-- Which offscreen image an action refers to. -/
inductive ImageTag where
  | color
  | depth
deriving DecidableEq, Repr

/-- Observable actions of the frame-lifecycle core, in the order the
source performs them. -/
inductive Action where
  | waitTimeline (value : Nat)
  | acquireNextImage
  | resetCommandBuffer (slot : Nat)
  | beginCommandBuffer (slot : Nat)
  | rendererUpdate
  | recordGraphics
  | blitOffscreenToSwapchain
  | uiNewFrame
  | rendererOnImgui
  | uiRenderOverlay
  | endCommandBuffer
  | queueSubmit (timelineSignal : Nat)
  | present (imageIndex : Nat)
  | waitEventTimeout
  | notifySwapchainDestroy
  | deviceWaitIdle
  | destroySwapchainImageView (handle : Nat)
  | destroySwapchainKHR (handle : Nat)
  | destroyOffscreenView (tag : ImageTag) (handle : Nat)
  | destroyOffscreenImage (tag : ImageTag) (handle : Nat)
  | querySurfaceSize (w h : Nat)
  | createSwapchainAction (w h : Nat)
  | createOffscreenAction (w h : Nat)
  | notifySwapchainReady
  | uiSetMinImageCount (n : Nat)
  | clearResizeRequested
deriving DecidableEq, Repr

/-- `VulkanEngine::begin_frame`: select the slot `frame_number %
FRAME_OVERLAP`; if that slot's `submitted_timeline_value` is positive,
wait on the timeline semaphore for exactly that value; acquire the next
swapchain image (result supplied by the device oracle `acq`); on
outdated/suboptimal set `resize_requested` and hand back a null command
buffer; on any other non-success throw (`VK_CHECK`); otherwise reset and
begin the slot's command buffer. Returns (trace, engine, imageIndex, cmd). -/
def begin_frame (e : Engine) (acq : VkResult) (acqImageIndex : Nat) :
    Except VkResult (List Action × Engine × Nat × Nat) :=
  let slot := e.state.frame_number % FRAME_OVERLAP
  let fr := e.frames.get slot
  let waitTrace : List Action :=
    if fr.submitted_timeline_value > 0 then
      [Action.waitTimeline fr.submitted_timeline_value]
    else []
  let trace := waitTrace ++ [Action.acquireNextImage]
  if acq = .errorOutOfDateKHR ∨ acq = .suboptimalKHR then
    .ok (trace,
         { e with state := { e.state with resize_requested := true } },
         acqImageIndex, 0)
  else if acq ≠ .success then
    .error acq
  else
    .ok (trace ++ [Action.resetCommandBuffer slot, Action.beginCommandBuffer slot],
         e, acqImageIndex, fr.mainCommandBuffer)

/-- `VulkanEngine::end_frame`: end the command buffer, increment the
uint64 counter `timeline_value_` (mod 2^64), submit signalling the
timeline semaphore with the incremented value, store that value into the
slot's `submitted_timeline_value`, then present (result supplied by the
device oracle `pres`); a present-time outdated/suboptimal result sets
`resize_requested` and returns normally, any other non-success throws. -/
def end_frame (e : Engine) (imageIndex : Nat) (pres : VkResult) :
    Except VkResult (List Action × Engine) :=
  let slot := e.state.frame_number % FRAME_OVERLAP
  let timeline_to_signal := (e.timeline_value + 1) % UINT64_MOD
  let e1 := { e with timeline_value := timeline_to_signal }
  let fr := e1.frames.get slot
  let fr' := { fr with submitted_timeline_value := timeline_to_signal }
  let e2 := { e1 with frames := e1.frames.set slot fr' }
  let trace := [Action.endCommandBuffer, Action.queueSubmit timeline_to_signal,
                Action.present imageIndex]
  if pres = .errorOutOfDateKHR ∨ pres = .suboptimalKHR then
    .ok (trace, { e2 with state := { e2.state with resize_requested := true } })
  else if pres ≠ .success then
    .error pres
  else
    .ok (trace, e2)

/-- The SDL events the run loop's event pump distinguishes. -/
inductive SdlEvent where
  | quit
  | windowCloseRequested
  | windowMinimized
  | windowRestored
  | windowMaximized
  | windowFocusGained
  | windowFocusLost
  | windowResized
  | windowPixelSizeChanged
  | other
deriving DecidableEq, Repr

/-- The `switch (e.type)` of the event pump in `VulkanEngine::run`. -/
def processEvent (s : EngineState) (ev : SdlEvent) : EngineState :=
  match ev with
  | .quit => { s with running := false }
  | .windowCloseRequested => { s with running := false }
  | .windowMinimized => { s with minimized := true, should_rendering := false }
  | .windowRestored => { s with minimized := false, should_rendering := true }
  | .windowMaximized => { s with minimized := false, should_rendering := true }
  | .windowFocusGained => { s with focused := true }
  | .windowFocusLost => { s with focused := false }
  | .windowResized => { s with resize_requested := true }
  | .windowPixelSizeChanged => { s with resize_requested := true }
  | .other => s

/-- The `while (SDL_PollEvent(&e))` drain loop, applied to the pending
event sequence supplied by the oracle. -/
def processEvents (s : EngineState) (evs : List SdlEvent) : EngineState :=
  evs.foldl processEvent s

/-- `VulkanEngine::destroy_swapchain`: destroy each non-null image view,
clear the image/view lists, then destroy the swapchain handle if non-null. -/
def destroy_swapchain (e : Engine) : List Action × Engine :=
  let viewTrace := (e.swapchain.swapchain_image_views.filter (· ≠ 0)).map
      Action.destroySwapchainImageView
  let scTrace : List Action :=
    if e.swapchain.swapchain ≠ 0 then
      [Action.destroySwapchainKHR e.swapchain.swapchain] else []
  (viewTrace ++ scTrace,
   { e with swapchain := { e.swapchain with
        swapchain := 0, swapchain_images := [], swapchain_image_views := [] } })

/-- `VulkanEngine::destroy_offscreen_drawable`: destroy the color view
then the color image then zero `drawable_image`, then the depth view then
the depth image then zero `depth_image` (each destroy guarded on a
non-null handle). -/
def destroy_offscreen_drawable (e : Engine) : List Action × Engine :=
  let d := e.swapchain.drawable_image
  let dep := e.swapchain.depth_image
  let tr :=
    (if d.imageView ≠ 0 then [Action.destroyOffscreenView .color d.imageView] else [])
    ++ (if d.image ≠ 0 then [Action.destroyOffscreenImage .color d.image] else [])
    ++ (if dep.imageView ≠ 0 then [Action.destroyOffscreenView .depth dep.imageView] else [])
    ++ (if dep.image ≠ 0 then [Action.destroyOffscreenImage .depth dep.image] else [])
  (tr, { e with swapchain := { e.swapchain with drawable_image := {}, depth_image := {} } })

/-- Device-side outputs of swapchain/offscreen creation (what the
vkb::SwapchainBuilder and the allocator return): the new swapchain handle,
the extent the builder actually chose, the image/view handle lists, and
fresh offscreen image/view handles. -/
structure SwapchainOracle where
  newSwapchain : Nat := 1
  builtExtent : Extent2D := ⟨1, 1⟩
  images : List Nat := [1]
  image_views : List Nat := [1]
  colorImage : Nat := 1
  colorView : Nat := 1
  depthImage : Nat := 1
  depthView : Nat := 1
deriving DecidableEq, Repr

/-- `VulkanEngine::create_swapchain(width, height)`: fix the image format
to B8G8R8A8_UNORM and install the chain the builder returns (handle,
extent, images, views come from the device oracle; the builder is asked
for exactly `width × height`). The deferred-destruction registration
(`mdq_`) has no observable effect before teardown and is not modelled. -/
def create_swapchain (e : Engine) (width height : Nat) (o : SwapchainOracle) :
    List Action × Engine :=
  ([Action.createSwapchainAction width height],
   { e with swapchain := { e.swapchain with
       swapchain_image_format := .b8g8r8a8Unorm,
       swapchain := o.newSwapchain,
       swapchain_extent := o.builtExtent,
       swapchain_images := o.images,
       swapchain_image_views := o.image_views } })

/-- `VulkanEngine::create_offscreen_drawable(width, height)`: allocate the
HDR color image (R16G16B16A16_SFLOAT) with its 2D view, then
unconditionally the depth image (D32_SFLOAT) with its 2D view, both with
extent `{width, height, 1}`. -/
def create_offscreen_drawable (e : Engine) (width height : Nat)
    (o : SwapchainOracle) : List Action × Engine :=
  ([Action.createOffscreenAction width height],
   { e with swapchain := { e.swapchain with
       drawable_image := { image := o.colorImage, imageView := o.colorView,
                           extentW := width, extentH := height,
                           format := .r16g16b16a16Sfloat },
       depth_image := { image := o.depthImage, imageView := o.depthView,
                        extentW := width, extentH := height,
                        format := .d32Sfloat } } })

/-- `VulkanEngine::recreate_swapchain`: no-op without a device; otherwise
notify the renderer of impending destruction, wait for device idle,
destroy the old swapchain, destroy the old offscreen target, query the
surface pixel size (`pxw`, `pxh` from SDL) clamping each dimension to at
least 1, create the new swapchain and offscreen target at that size,
notify the renderer the chain is ready, update the UI backend's minimum
image count, and clear `resize_requested`. -/
def recreate_swapchain (e : Engine) (pxw pxh : Int) (o : SwapchainOracle) :
    List Action × Engine :=
  if ¬ e.hasDevice then ([], e)
  else
    let tr0 : List Action :=
      if e.hasRenderer then [Action.notifySwapchainDestroy] else []
    let tr1 := [Action.deviceWaitIdle]
    let (tr2, e2) := destroy_swapchain e
    let (tr3, e3) := destroy_offscreen_drawable e2
    let w := (max 1 pxw).toNat
    let h := (max 1 pxh).toNat
    let tr4 := [Action.querySurfaceSize w h]
    let (tr5, e5) := create_swapchain e3 w h o
    let (tr6, e6) := create_offscreen_drawable e5 w h o
    let tr7 : List Action :=
      if e6.hasRenderer then [Action.notifySwapchainReady] else []
    let tr8 : List Action :=
      if e6.hasUI then
        [Action.uiSetMinImageCount e6.swapchain.swapchain_images.length] else []
    let tr9 := [Action.clearResizeRequested]
    (tr0 ++ tr1 ++ tr2 ++ tr3 ++ tr4 ++ tr5 ++ tr6 ++ tr7 ++ tr8 ++ tr9,
     { e6 with state := { e6.state with resize_requested := false } })

/-- The `FrameContext` snapshot handed to the renderer plugin. -/
structure FrameContext where
  frame_index : Nat := 0
  image_index : Nat := 0
  extent : Extent2D := ⟨0, 0⟩
  swapchain_format : Format := .undefined
  dt_sec : Nat := 0
  time_sec : Nat := 0
  swapchain_image : Nat := 0
  swapchain_image_view : Nat := 0
  offscreen_image : Nat := 0
  offscreen_image_view : Nat := 0
  depth_image : Nat := 0
  depth_image_view : Nat := 0
deriving DecidableEq, Repr

/-- `VulkanEngine::make_frame_context`: zero-initialise, copy the pass-through
fields, copy format and timing from engine state, fill the swapchain
image/view handles only when `image_index` is in bounds of the image list
(otherwise they stay VK_NULL_HANDLE), and copy the offscreen/depth handles. -/
def make_frame_context (e : Engine) (frame_index image_index : Nat)
    (extent : Extent2D) : FrameContext :=
  let base : FrameContext :=
    { frame_index := frame_index
      image_index := image_index
      extent := extent
      swapchain_format := e.swapchain.swapchain_image_format
      dt_sec := e.state.dt_sec
      time_sec := e.state.time_sec
      offscreen_image := e.swapchain.drawable_image.image
      offscreen_image_view := e.swapchain.drawable_image.imageView
      depth_image := e.swapchain.depth_image.image
      depth_image_view := e.swapchain.depth_image.imageView }
  if image_index < e.swapchain.swapchain_images.length then
    { base with
      swapchain_image := e.swapchain.swapchain_images.getD image_index 0
      swapchain_image_view := e.swapchain.swapchain_image_views.getD image_index 0 }
  else base

/-- `VulkanEngine::blit_offscreen_to_swapchain`: early-out when the
offscreen color image is null or the image index is out of bounds;
otherwise record the barrier+blit commands. -/
def blit_offscreen_to_swapchain (e : Engine) (imageIndex : Nat) : List Action :=
  if e.swapchain.drawable_image.image = 0 then []
  else if imageIndex ≥ e.swapchain.swapchain_images.length then []
  else [Action.blitOffscreenToSwapchain]

/-- The UI block of the loop body: `if (ui_) { new_frame; on_imgui if
renderer; render_overlay }`. -/
def ui_overlay_trace (e : Engine) : List Action :=
  if e.hasUI then
    [Action.uiNewFrame]
    ++ (if e.hasRenderer then [Action.rendererOnImgui] else [])
    ++ [Action.uiRenderOverlay]
  else []

/-- Per-iteration inputs the loop body reads from the outside world: the
pending SDL events, the clock, the acquire/present results and acquired
image index, and the surface size / device outputs used if a swapchain
recreation runs this iteration. -/
structure IterOracle where
  events : List SdlEvent := []
  dt : Nat := 0
  time : Nat := 0
  acqResult : VkResult := .success
  acqImageIndex : Nat := 0
  pxw : Int := 1
  pxh : Int := 1
  sw : SwapchainOracle := {}
  presResult : VkResult := .success
deriving Repr

/-- The frame part of one loop-body iteration of `VulkanEngine::run`,
from `begin_frame` onwards: `begin_frame` (restarting — with an
in-iteration recreate — when acquire handed back a null command buffer),
renderer update/record, offscreen blit, UI overlay, then `end_frame` and
the `frame_number` increment. -/
def frame_body (e : Engine) (o : IterOracle) :
    Except VkResult (List Action × Engine) := do
  let (tr1, e1, imageIndex, cmd) ← begin_frame e o.acqResult o.acqImageIndex
  if cmd = 0 then
    if e1.state.resize_requested then
      let (tr2, e2) := recreate_swapchain e1 o.pxw o.pxh o.sw
      pure (tr1 ++ tr2, e2)
    else
      pure (tr1, e1)
  else
    let tr2 : List Action :=
      if e1.hasRenderer then [Action.rendererUpdate, Action.recordGraphics] else []
    let tr3 := blit_offscreen_to_swapchain e1 imageIndex
    let tr4 := ui_overlay_trace e1
    let (tr5, e2) ← end_frame e1 imageIndex o.presResult
    let e3 := { e2 with state := { e2.state with
                  frame_number := (e2.state.frame_number + 1) % UINT64_MOD } }
    pure (tr1 ++ tr2 ++ tr3 ++ tr4 ++ tr5, e3)

/-- One iteration of the `while (state_.running)` loop body of
`VulkanEngine::run`: event pump, time update, idle path when
`should_rendering` is false, resize handling, then the frame part
(`frame_body`). -/
def run_iteration (e : Engine) (o : IterOracle) :
    Except VkResult (List Action × Engine) :=
  let e := { e with state := processEvents e.state o.events }
  let e := { e with state := { e.state with dt_sec := o.dt, time_sec := o.time } }
  if ¬ e.state.should_rendering then
    .ok ([Action.waitEventTimeout], e)
  else if e.state.resize_requested then
    .ok (recreate_swapchain e o.pxw o.pxh o.sw)
  else
    frame_body e o

/-- The two guards at the entry of `VulkanEngine::run`:
`if (!state_.running) state_.running = true;` and
`if (!state_.should_rendering) state_.should_rendering = true;`. -/
def run_entry (e : Engine) : Engine :=
  let e1 :=
    if ¬ e.state.running then
      { e with state := { e.state with running := true } }
    else e
  if ¬ e1.state.should_rendering then
    { e1 with state := { e1.state with should_rendering := true } }
  else e1

/-- `VulkanEngine::set_renderer`: store the renderer implementation. -/
def set_renderer (e : Engine) : Engine :=
  { e with hasRenderer := true }

/-- Result codes of the C ABI (vk_abi.h / vv_camera.h). -/
inductive VKVizResult where
  | success
  | errorUnknown
  | errorInvalidArgument
  | errorUnsupportedVersion
  | errorAlreadyInitialized
  | errorNotInitialized
  | errorOutOfMemory
  | errorRunLoopActive
  | errorStructSizeMismatch
deriving DecidableEq, Repr

/-- The ABI wrapper object `VKVizEngine`: the core engine plus the stored
callback table flag and the exit-request flag. -/
structure VKVizEngine where
  core : Engine
  callbacksSet : Bool := false
  exit_requested : Bool := false
deriving DecidableEq, Repr

/-- `VKViz_SetRenderer(engine, callbacks, user_data)`: null-engine check,
then reject with ALREADY_INITIALIZED when `core->state_.initialized` is
already set, then validate the callback struct, then store the callbacks
and install the adapter renderer on the core. `callbacksValid` models
`callbacks != nullptr && callbacks->struct_size == sizeof(...)`. -/
def VKViz_SetRenderer (engine : Option VKVizEngine) (callbacksValid : Bool) :
    VKVizResult × Option VKVizEngine :=
  match engine with
  | none => (.errorInvalidArgument, none)
  | some w =>
    if w.core.state.initialized then (.errorAlreadyInitialized, some w)
    else if ¬ callbacksValid then (.errorStructSizeMismatch, some w)
    else (.success,
          some { w with callbacksSet := true, core := set_renderer w.core })

/-- `VKViz_Run(engine)` up to loop entry: null-engine check, reject with
NOT_INITIALIZED when the core was never initialised, reject with
RUN_LOOP_ACTIVE when `state_.running` is already true; otherwise set
`state_.running = true` and enter `run()`, whose own entry guards are
`run_entry` (the loop iterations themselves are `run_iteration`). -/
def VKViz_Run (engine : Option VKVizEngine) : VKVizResult × Option VKVizEngine :=
  match engine with
  | none => (.errorInvalidArgument, none)
  | some w =>
    if ¬ w.core.state.initialized then (.errorNotInitialized, some w)
    else if w.core.state.running then (.errorRunLoopActive, some w)
    else
      let core1 := { w.core with state := { w.core.state with running := true } }
      (.success, some { w with core := run_entry core1 })

/-- The slot index `begin_frame`/`end_frame` operate on:
`state_.frame_number % FRAME_OVERLAP`. -/
def currentSlot (e : Engine) : Nat := e.state.frame_number % FRAME_OVERLAP

/-- The `submitted_timeline_value` stored in the current slot. -/
def slotTimelineValue (e : Engine) : Nat :=
  (e.frames.get (currentSlot e)).submitted_timeline_value

/-- C1: whenever `begin_frame` (on the slot selected by
`frame_number mod 2`) returns without throwing, then: if the slot's stored
`submitted_timeline_value` is positive, the very first action is a wait on
the timeline semaphore for exactly that stored value (in particular it
precedes the command-buffer reset); if the stored value is 0, no timeline
wait occurs at all; and on a successful acquire the trace is exactly the
optional wait, the acquire, then the reset and re-begin of the slot's
command buffer. -/
theorem begin_frame_slot_reuse_wait (e : Engine) (acq : VkResult) (idx : Nat)
    (tr : List Action) (e' : Engine) (ii cmd : Nat)
    (hok : begin_frame e acq idx = .ok (tr, e', ii, cmd)) :
    (0 < slotTimelineValue e →
      tr.head? = some (Action.waitTimeline (slotTimelineValue e))) ∧
    (slotTimelineValue e = 0 → ∀ x, Action.waitTimeline x ∉ tr) ∧
    (acq = .success →
      tr = (if 0 < slotTimelineValue e
            then [Action.waitTimeline (slotTimelineValue e)] else [])
        ++ [Action.acquireNextImage,
            Action.resetCommandBuffer (currentSlot e),
            Action.beginCommandBuffer (currentSlot e)]) := by
  revert hok
  unfold begin_frame
  cases acq <;>
    by_cases hv : 0 < slotTimelineValue e <;>
      simp only [slotTimelineValue, currentSlot] at hv ⊢ <;>
        simp_all <;>
          (intro h1 h2 h3 h4 <;> subst h1 <;> simp_all) <;>
            omega

/-- Concrete engine used by the C1 witness: slot 0 was last submitted with
timeline value 5 and owns command buffer 9. -/
def c1WitnessEngine : Engine :=
  { frames := ⟨{ mainCommandBuffer := 9, submitted_timeline_value := 5 }, {}⟩ }

/-- The trace `begin_frame` produces on `c1WitnessEngine`. -/
def c1WitnessTrace : List Action :=
  [.waitTimeline 5, .acquireNextImage, .resetCommandBuffer 0, .beginCommandBuffer 0]

/-- C1 witness. -/
theorem begin_frame_slot_reuse_wait_witness :
    (0 < slotTimelineValue c1WitnessEngine →
      c1WitnessTrace.head? =
        some (Action.waitTimeline (slotTimelineValue c1WitnessEngine))) ∧
    (slotTimelineValue c1WitnessEngine = 0 →
      ∀ x, Action.waitTimeline x ∉ c1WitnessTrace) ∧
    (VkResult.success = VkResult.success →
      c1WitnessTrace =
        (if 0 < slotTimelineValue c1WitnessEngine
         then [Action.waitTimeline (slotTimelineValue c1WitnessEngine)] else [])
          ++ [Action.acquireNextImage,
              Action.resetCommandBuffer (currentSlot c1WitnessEngine),
              Action.beginCommandBuffer (currentSlot c1WitnessEngine)]) :=
  begin_frame_slot_reuse_wait c1WitnessEngine .success 0
    c1WitnessTrace c1WitnessEngine 0 9 (by rfl)

/-- C2: whenever `end_frame` returns without throwing, and the values
signalled by earlier submissions all lie at or below the current counter
(the invariant the code maintains, since every submission signals the
just-incremented counter), and the uint64 counter does not overflow, then
the new counter is the old plus one, the submission signals exactly the
new counter value, that value is strictly greater than every earlier
signalled value, it is stored verbatim in the submitting slot's
`submitted_timeline_value`, and the invariant is preserved for the
extended list of signalled values. -/
theorem end_frame_timeline_strictly_monotonic (e : Engine) (idx : Nat)
    (pres : VkResult) (sigs : List Nat)
    (hsigs : ∀ v ∈ sigs, v ≤ e.timeline_value)
    (hnoov : e.timeline_value + 1 < UINT64_MOD)
    (tr : List Action) (e' : Engine)
    (hok : end_frame e idx pres = .ok (tr, e')) :
    e'.timeline_value = e.timeline_value + 1 ∧
    Action.queueSubmit e'.timeline_value ∈ tr ∧
    (∀ v ∈ sigs, v < e'.timeline_value) ∧
    (e'.frames.get (currentSlot e)).submitted_timeline_value = e'.timeline_value ∧
    (∀ v ∈ sigs ++ [e'.timeline_value], v ≤ e'.timeline_value) := by
  have hmod : (e.timeline_value + 1) % UINT64_MOD = e.timeline_value + 1 :=
    Nat.mod_eq_of_lt hnoov
  have hstore : ∀ fs : Frames, ∀ i : Nat, ∀ fd : FrameData,
      ((fs.set i fd).get i) = fd := by
    intro fs i fd
    unfold Frames.get Frames.set
    by_cases h : i = 0 <;> simp [h]
  have hshape : tr = [.endCommandBuffer, .queueSubmit (e.timeline_value + 1),
        .present idx] ∧
      e'.timeline_value = e.timeline_value + 1 ∧
      e'.frames = e.frames.set (currentSlot e)
        { e.frames.get (currentSlot e) with
          submitted_timeline_value := e.timeline_value + 1 } := by
    revert hok
    unfold end_frame
    simp only [hmod]
    cases pres <;> simp <;>
      (intro h1 h2; subst h1; subst h2; simp [currentSlot])
  obtain ⟨htr, htv, hfr⟩ := hshape
  subst htr
  refine ⟨htv, by simp [htv], fun v hv => htv ▸ Nat.lt_succ_of_le (hsigs v hv),
          by simp [hfr, htv, hstore], ?_⟩
  intro v hv
  rcases List.mem_append.mp hv with h | h
  · exact htv ▸ Nat.le_succ_of_le (hsigs v h)
  · simp at h; omega

/-- Concrete engine used by the C2 witness: counter at 3 before the call. -/
def c2WitnessEngine : Engine := { timeline_value := 3 }

/-- The engine `end_frame` returns on `c2WitnessEngine` with a clean present. -/
def c2WitnessEngineAfter : Engine :=
  { timeline_value := 4, frames := ⟨{ submitted_timeline_value := 4 }, {}⟩ }

/-- The trace `end_frame` produces on `c2WitnessEngine`. -/
def c2WitnessTrace : List Action :=
  [.endCommandBuffer, .queueSubmit 4, .present 0]

/-- C2 witness. -/
theorem end_frame_timeline_strictly_monotonic_witness :
    c2WitnessEngineAfter.timeline_value = c2WitnessEngine.timeline_value + 1 ∧
    Action.queueSubmit c2WitnessEngineAfter.timeline_value ∈ c2WitnessTrace ∧
    (∀ v ∈ [1, 2, 3], v < c2WitnessEngineAfter.timeline_value) ∧
    (c2WitnessEngineAfter.frames.get (currentSlot c2WitnessEngine)).submitted_timeline_value
      = c2WitnessEngineAfter.timeline_value ∧
    (∀ v ∈ [1, 2, 3] ++ [c2WitnessEngineAfter.timeline_value],
      v ≤ c2WitnessEngineAfter.timeline_value) :=
  end_frame_timeline_strictly_monotonic c2WitnessEngine 0 .success [1, 2, 3]
    (by decide) (by decide) c2WitnessTrace c2WitnessEngineAfter
    (by rfl)

/-- C9: `make_frame_context` with an out-of-bounds image index leaves both
swapchain handles null while all remaining fields are populated normally
from its arguments and the engine state. -/
theorem make_frame_context_oob_null_handles (e : Engine) (fi ii : Nat)
    (ext : Extent2D) (h : e.swapchain.swapchain_images.length ≤ ii) :
    (make_frame_context e fi ii ext).swapchain_image = 0 ∧
    (make_frame_context e fi ii ext).swapchain_image_view = 0 ∧
    (make_frame_context e fi ii ext).frame_index = fi ∧
    (make_frame_context e fi ii ext).image_index = ii ∧
    (make_frame_context e fi ii ext).extent = ext ∧
    (make_frame_context e fi ii ext).swapchain_format
      = e.swapchain.swapchain_image_format ∧
    (make_frame_context e fi ii ext).dt_sec = e.state.dt_sec ∧
    (make_frame_context e fi ii ext).time_sec = e.state.time_sec ∧
    (make_frame_context e fi ii ext).offscreen_image
      = e.swapchain.drawable_image.image ∧
    (make_frame_context e fi ii ext).offscreen_image_view
      = e.swapchain.drawable_image.imageView ∧
    (make_frame_context e fi ii ext).depth_image
      = e.swapchain.depth_image.image ∧
    (make_frame_context e fi ii ext).depth_image_view
      = e.swapchain.depth_image.imageView := by
  simp [make_frame_context, Nat.not_lt.mpr h]

/-- C9 witness. -/
theorem make_frame_context_oob_null_handles_witness :
    let e : Engine := { swapchain := { swapchain_images := [7, 8],
                                       swapchain_image_views := [17, 18] } }
    e.swapchain.swapchain_images.length ≤ 5 ∧
    ((make_frame_context e 3 5 ⟨64, 48⟩).swapchain_image = 0 ∧
     (make_frame_context e 3 5 ⟨64, 48⟩).swapchain_image_view = 0) := by
  refine ⟨by decide, ?_, ?_⟩ <;>
    have h := make_frame_context_oob_null_handles
      { swapchain := { swapchain_images := [7, 8],
                       swapchain_image_views := [17, 18] } } 3 5 ⟨64, 48⟩
      (by decide)
  · exact h.1
  · exact h.2.1

/-- Helper: `Except` bind on a success value. -/
theorem except_bind_ok {e : Type} {a b : Type} (x : a) (f : a → Except e b) :
    (Except.ok x >>= f) = f x := rfl

/-- Helper: the swapchain-recreation procedure performs no frame work: its
trace contains no renderer recording, no blit, no submit and no present,
and it leaves `frame_number` untouched. -/
theorem recreate_swapchain_no_frame_work (e : Engine) (pxw pxh : Int)
    (o : SwapchainOracle) :
    (recreate_swapchain e pxw pxh o).2.state.frame_number
      = e.state.frame_number ∧
    ∀ a ∈ (recreate_swapchain e pxw pxh o).1,
      a ≠ Action.rendererUpdate ∧ a ≠ Action.recordGraphics ∧
      a ≠ Action.blitOffscreenToSwapchain ∧
      (∀ v, a ≠ Action.queueSubmit v) ∧ (∀ i, a ≠ Action.present i) := by
  unfold recreate_swapchain destroy_swapchain destroy_offscreen_drawable
    create_swapchain create_offscreen_drawable
  by_cases hd : e.hasDevice <;> simp [hd]
  intro a ha
  rcases ha with h|h|h|h|h|h|h|h|h|h|h|h|h|h <;>
    first
      | (obtain ⟨x, hx, rfl⟩ := h; simp)
      | (obtain ⟨hb, rfl⟩ := h; simp)
      | (subst h; simp)

/-- Helper: `begin_frame` under an outdated/suboptimal acquire returns the
optional timeline wait followed by the acquire, sets `resize_requested`,
and hands back a null command buffer. -/
theorem begin_frame_outdated (e : Engine) (acq : VkResult) (idx : Nat)
    (hacq : acq = .errorOutOfDateKHR ∨ acq = .suboptimalKHR) :
    begin_frame e acq idx =
      .ok ((if 0 < slotTimelineValue e
            then [Action.waitTimeline (slotTimelineValue e)] else [])
             ++ [Action.acquireNextImage],
           { e with state := { e.state with resize_requested := true } },
           idx, 0) := by
  rcases hacq with h | h <;> subst h <;>
    simp [begin_frame, slotTimelineValue, currentSlot]

/-- Helper: `begin_frame` throws on any acquire status other than success,
outdated and suboptimal (the `VK_CHECK` path). -/
theorem begin_frame_other_error (e : Engine) (idx : Nat) :
    begin_frame e .errorOther idx = .error .errorOther := by
  simp [begin_frame]

/-- Helper: with no pending events, rendering enabled and no resize
pending, the loop iteration reaches the frame part on the time-updated
state. -/
theorem run_iteration_render_path (e : Engine) (o : IterOracle)
    (hev : o.events = [])
    (hsr : e.state.should_rendering = true)
    (hrr : e.state.resize_requested = false) :
    run_iteration e o = frame_body
      { e with state := { e.state with dt_sec := o.dt, time_sec := o.time } }
      o := by
  unfold run_iteration
  simp [hev, processEvents, hsr, hrr]

/-- Helper: nothing but a timeline wait or the acquire call occurs in the
trace `begin_frame` emits before a reset. -/
theorem not_mem_begin_trace (x : Action) (v : Nat)
    (hx : ∀ w, x ≠ Action.waitTimeline w) (hx2 : x ≠ Action.acquireNextImage) :
    x ∉ (if 0 < v then [Action.waitTimeline v] else [])
          ++ [Action.acquireNextImage] := by
  by_cases hv : 0 < v <;> simp [hv, hx2, hx]

/-- Helper: the frame part throws on an unexpected acquire status. -/
theorem frame_body_other_error (e : Engine) (o : IterOracle)
    (h : o.acqResult = .errorOther) :
    frame_body e o = .error .errorOther := by
  unfold frame_body
  rw [h, begin_frame_other_error]
  rfl

/-- C3: with no pending events, rendering enabled and no resize pending,
an acquire-time outdated/suboptimal status makes `begin_frame` set
`resize_requested` and return a null command buffer, and the loop
iteration completes without error, performs no renderer recording, no
blit, no submit and no present, and leaves `state_.frame_number`
unchanged; any other non-success acquire status makes the iteration throw. -/
theorem acquire_outdated_skips_frame (e : Engine) (o : IterOracle)
    (hev : o.events = [])
    (hsr : e.state.should_rendering = true)
    (hrr : e.state.resize_requested = false)
    (hacq : o.acqResult = .errorOutOfDateKHR ∨ o.acqResult = .suboptimalKHR) :
    (∀ tr e1 ii cmd,
       begin_frame e o.acqResult o.acqImageIndex = .ok (tr, e1, ii, cmd) →
         e1.state.resize_requested = true ∧ cmd = 0) ∧
    (∃ tr e', run_iteration e o = .ok (tr, e') ∧
       Action.rendererUpdate ∉ tr ∧
       Action.recordGraphics ∉ tr ∧
       Action.blitOffscreenToSwapchain ∉ tr ∧
       (∀ v, Action.queueSubmit v ∉ tr) ∧
       (∀ i, Action.present i ∉ tr) ∧
       e'.state.frame_number = e.state.frame_number) ∧
    run_iteration e { o with acqResult := .errorOther }
      = .error .errorOther := by
  have hpath := run_iteration_render_path e o hev hsr hrr
  set etime : Engine :=
    { e with state := { e.state with dt_sec := o.dt, time_sec := o.time } }
    with hetime
  set eresz : Engine :=
    { etime with state := { etime.state with resize_requested := true } }
    with heresz
  have hbe := begin_frame_outdated e o.acqResult o.acqImageIndex hacq
  have hbe2 := begin_frame_outdated etime o.acqResult o.acqImageIndex hacq
  refine ⟨?_, ?_, ?_⟩
  · intro tr e1 ii cmd h
    rw [hbe] at h
    simp only [Except.ok.injEq, Prod.mk.injEq] at h
    obtain ⟨-, h2, -, h4⟩ := h
    exact ⟨by rw [← h2], h4.symm⟩
  · rcases hsplit : recreate_swapchain eresz o.pxw o.pxh o.sw with ⟨rtr, ren⟩
    have hbody : frame_body etime o =
        .ok (((if 0 < slotTimelineValue etime
               then [Action.waitTimeline (slotTimelineValue etime)] else [])
                ++ [Action.acquireNextImage]) ++ rtr, ren) := by
      unfold frame_body
      rw [hbe2, except_bind_ok]
      simp [hsplit]
      rfl
    have hrec := recreate_swapchain_no_frame_work eresz o.pxw o.pxh o.sw
    rw [hsplit] at hrec
    refine ⟨_, _, hpath.trans hbody, ?_, ?_, ?_, ?_, ?_, ?_⟩
    · intro hmem
      rcases List.mem_append.mp hmem with h | h
      · exact absurd h (not_mem_begin_trace _ _ (by simp) (by simp))
      · exact (hrec.2 _ h).1 rfl
    · intro hmem
      rcases List.mem_append.mp hmem with h | h
      · exact absurd h (not_mem_begin_trace _ _ (by simp) (by simp))
      · exact (hrec.2 _ h).2.1 rfl
    · intro hmem
      rcases List.mem_append.mp hmem with h | h
      · exact absurd h (not_mem_begin_trace _ _ (by simp) (by simp))
      · exact (hrec.2 _ h).2.2.1 rfl
    · intro v hmem
      rcases List.mem_append.mp hmem with h | h
      · exact absurd h (not_mem_begin_trace _ _ (by simp) (by simp))
      · exact (hrec.2 _ h).2.2.2.1 v rfl
    · intro i hmem
      rcases List.mem_append.mp hmem with h | h
      · exact absurd h (not_mem_begin_trace _ _ (by simp) (by simp))
      · exact (hrec.2 _ h).2.2.2.2 i rfl
    · calc ren.state.frame_number
          = eresz.state.frame_number := hrec.1
        _ = e.state.frame_number := by simp [heresz, hetime]
  · have hpath2 := run_iteration_render_path e { o with acqResult := .errorOther }
      hev hsr hrr
    exact hpath2.trans (frame_body_other_error _ _ rfl)

/-- Helper: `begin_frame` on a successful acquire: optional timeline wait,
acquire, then reset and begin of the slot's command buffer; the engine is
unchanged and the slot's command buffer is handed back. -/
theorem begin_frame_success (e : Engine) (idx : Nat) :
    begin_frame e .success idx =
      .ok (((if 0 < slotTimelineValue e
             then [Action.waitTimeline (slotTimelineValue e)] else [])
              ++ [Action.acquireNextImage])
             ++ [Action.resetCommandBuffer (currentSlot e),
                 Action.beginCommandBuffer (currentSlot e)],
           e, idx, (e.frames.get (currentSlot e)).mainCommandBuffer) := by
  simp [begin_frame, slotTimelineValue, currentSlot]

/-- Helper: `end_frame` under an outdated/suboptimal present submits,
stores the new counter in the slot, sets `resize_requested`, and returns
normally. -/
theorem end_frame_outdated (e : Engine) (idx : Nat) (pres : VkResult)
    (hpres : pres = .errorOutOfDateKHR ∨ pres = .suboptimalKHR) :
    end_frame e idx pres =
      .ok ([Action.endCommandBuffer,
            Action.queueSubmit ((e.timeline_value + 1) % UINT64_MOD),
            Action.present idx],
           { e with
             timeline_value := (e.timeline_value + 1) % UINT64_MOD,
             frames := e.frames.set (currentSlot e)
               { e.frames.get (currentSlot e) with
                 submitted_timeline_value := (e.timeline_value + 1) % UINT64_MOD },
             state := { e.state with resize_requested := true } }) := by
  rcases hpres with h | h <;> subst h <;> simp [end_frame, currentSlot]

/-- C4: with a successful acquire and a present-time outdated/suboptimal
status, the iteration is not treated as an error: the frame is submitted
(the timeline signal appears in the trace) and presented, the final state
has `resize_requested` set for the next iteration, and the absolute frame
counter is still incremented — in contrast to the acquire-time case of C3
where the increment is skipped. -/
theorem present_outdated_still_increments (e : Engine) (o : IterOracle)
    (hev : o.events = [])
    (hsr : e.state.should_rendering = true)
    (hrr : e.state.resize_requested = false)
    (hacq : o.acqResult = .success)
    (hcmd : (e.frames.get (currentSlot e)).mainCommandBuffer ≠ 0)
    (hpres : o.presResult = .errorOutOfDateKHR ∨ o.presResult = .suboptimalKHR) :
    ∃ tr e', run_iteration e o = .ok (tr, e') ∧
      Action.queueSubmit ((e.timeline_value + 1) % UINT64_MOD) ∈ tr ∧
      Action.present o.acqImageIndex ∈ tr ∧
      e'.state.resize_requested = true ∧
      e'.state.frame_number = (e.state.frame_number + 1) % UINT64_MOD := by
  have hpath := run_iteration_render_path e o hev hsr hrr
  set etime : Engine :=
    { e with state := { e.state with dt_sec := o.dt, time_sec := o.time } }
    with hetime
  have hcmd' : ¬ ((e.frames.get (currentSlot etime)).mainCommandBuffer = 0) :=
    hcmd
  have hbe := begin_frame_success etime o.acqImageIndex
  have hef := end_frame_outdated etime o.acqImageIndex o.presResult hpres
  rw [hpath]
  unfold frame_body
  rw [hacq, hbe, except_bind_ok]
  dsimp only
  rw [if_neg hcmd', hef, except_bind_ok]
  dsimp only
  refine ⟨_, _, rfl, ?_, ?_, ?_, ?_⟩
  · simp [List.mem_append]
  · simp [List.mem_append]
  · simp [hetime]
  · simp [hetime]

/-- C5: on an engine with a device, a renderer and a UI backend, the
recreation procedure performs exactly, in order: renderer
destruction notice, full device-idle wait, destruction of the old
swapchain, destruction of the old offscreen target, surface-size query
with both dimensions clamped to at least 1, creation of the new swapchain
then the new offscreen target at that size, renderer ready notice, UI
minimum-image-count update with the new chain's image count, and the
clearing of the resize flag (which the final state reflects). -/
theorem recreate_swapchain_exact_sequence (e : Engine) (pxw pxh : Int)
    (o : SwapchainOracle)
    (hd : e.hasDevice = true) (hr : e.hasRenderer = true)
    (hu : e.hasUI = true) :
    (recreate_swapchain e pxw pxh o).1 =
      [Action.notifySwapchainDestroy, Action.deviceWaitIdle]
        ++ (destroy_swapchain e).1
        ++ (destroy_offscreen_drawable (destroy_swapchain e).2).1
        ++ [Action.querySurfaceSize (max 1 pxw).toNat (max 1 pxh).toNat,
            Action.createSwapchainAction (max 1 pxw).toNat (max 1 pxh).toNat,
            Action.createOffscreenAction (max 1 pxw).toNat (max 1 pxh).toNat,
            Action.notifySwapchainReady,
            Action.uiSetMinImageCount o.images.length,
            Action.clearResizeRequested] ∧
    (recreate_swapchain e pxw pxh o).2.state.resize_requested = false := by
  unfold recreate_swapchain
  simp [hd, hr, hu, destroy_swapchain, destroy_offscreen_drawable,
    create_swapchain, create_offscreen_drawable]

/-- The offscreen color image of the C6 input engine. -/
def offscreenColorImage : AllocatedImage :=
  { image := 10, imageView := 11, extentW := 1, extentH := 1,
    format := .r16g16b16a16Sfloat }

/-- The offscreen depth image of the C6 input engine. -/
def offscreenDepthImage : AllocatedImage :=
  { image := 20, imageView := 21, extentW := 1, extentH := 1,
    format := .d32Sfloat }

/-- Engine whose offscreen images and views are all live. -/
def offscreenEngine : Engine where
  swapchain := { drawable_image := offscreenColorImage,
                 depth_image := offscreenDepthImage }

/-- C6 counterexample: on a live offscreen target,
`destroy_offscreen_drawable` releases the color view and image strictly
before the depth view and image — the same order as creation, not the
reverse order the claim requires (depth before color). -/
theorem destroy_offscreen_not_reverse_order :
    (destroy_offscreen_drawable offscreenEngine).1 =
      [Action.destroyOffscreenView .color 11,
       Action.destroyOffscreenImage .color 10,
       Action.destroyOffscreenView .depth 21,
       Action.destroyOffscreenImage .depth 20] ∧
    (destroy_offscreen_drawable offscreenEngine).1.indexOf
        (Action.destroyOffscreenImage .color 10) <
      (destroy_offscreen_drawable offscreenEngine).1.indexOf
        (Action.destroyOffscreenImage .depth 20) := by
  decide

/-- C6 amended: creation allocates the HDR color image and then,
unconditionally, the depth image; destruction releases them in the SAME
order — the color view, the color image, the depth view, then the depth
image — so only each image's view is released before the image itself, and
both handle pairs are zeroed afterwards. -/
theorem destroy_offscreen_creation_order (e : Engine)
    (hcv : e.swapchain.drawable_image.imageView ≠ 0)
    (hci : e.swapchain.drawable_image.image ≠ 0)
    (hdv : e.swapchain.depth_image.imageView ≠ 0)
    (hdi : e.swapchain.depth_image.image ≠ 0) :
    (destroy_offscreen_drawable e).1 =
      [Action.destroyOffscreenView .color e.swapchain.drawable_image.imageView,
       Action.destroyOffscreenImage .color e.swapchain.drawable_image.image,
       Action.destroyOffscreenView .depth e.swapchain.depth_image.imageView,
       Action.destroyOffscreenImage .depth e.swapchain.depth_image.image] ∧
    (destroy_offscreen_drawable e).2.swapchain.drawable_image = {} ∧
    (destroy_offscreen_drawable e).2.swapchain.depth_image = {} := by
  simp [destroy_offscreen_drawable, hcv, hci, hdv, hdi]

/-- C6 amended witness. -/
theorem destroy_offscreen_creation_order_witness :
    (destroy_offscreen_drawable offscreenEngine).1 =
      [Action.destroyOffscreenView .color
         offscreenEngine.swapchain.drawable_image.imageView,
       Action.destroyOffscreenImage .color
         offscreenEngine.swapchain.drawable_image.image,
       Action.destroyOffscreenView .depth
         offscreenEngine.swapchain.depth_image.imageView,
       Action.destroyOffscreenImage .depth
         offscreenEngine.swapchain.depth_image.image] ∧
    (destroy_offscreen_drawable offscreenEngine).2.swapchain.drawable_image
      = {} ∧
    (destroy_offscreen_drawable offscreenEngine).2.swapchain.depth_image
      = {} :=
  destroy_offscreen_creation_order offscreenEngine
    (by decide) (by decide) (by decide) (by decide)

/-- C7: after a recreation on an engine with a device, assuming the
swapchain builder honoured the requested (clamped) surface size — the
behaviour of the external vkb::SwapchainBuilder in the normal case — the
offscreen color and depth extents both equal the recorded swapchain
extent, which itself is the surface size with each dimension clamped to
at least 1 (so degenerate 0×0 input yields 1×1). -/
theorem recreate_offscreen_matches_swapchain_extent (e : Engine)
    (pxw pxh : Int) (o : SwapchainOracle)
    (hd : e.hasDevice = true)
    (hext : o.builtExtent = ⟨(max 1 pxw).toNat, (max 1 pxh).toNat⟩) :
    (recreate_swapchain e pxw pxh o).2.swapchain.drawable_image.extentW
      = (recreate_swapchain e pxw pxh o).2.swapchain.swapchain_extent.width ∧
    (recreate_swapchain e pxw pxh o).2.swapchain.drawable_image.extentH
      = (recreate_swapchain e pxw pxh o).2.swapchain.swapchain_extent.height ∧
    (recreate_swapchain e pxw pxh o).2.swapchain.depth_image.extentW
      = (recreate_swapchain e pxw pxh o).2.swapchain.swapchain_extent.width ∧
    (recreate_swapchain e pxw pxh o).2.swapchain.depth_image.extentH
      = (recreate_swapchain e pxw pxh o).2.swapchain.swapchain_extent.height ∧
    (recreate_swapchain e pxw pxh o).2.swapchain.swapchain_extent
      = ⟨(max 1 pxw).toNat, (max 1 pxh).toNat⟩ := by
  unfold recreate_swapchain
  simp [hd, hext, destroy_swapchain, destroy_offscreen_drawable,
    create_swapchain, create_offscreen_drawable]

/-- C8: once `state_.initialized` is set, `VKViz_SetRenderer` is rejected
with ALREADY_INITIALIZED (even with a valid callback struct), and once
`state_.running` is set `VKViz_Run` is rejected with RUN_LOOP_ACTIVE;
the two codes are distinct, and each rejected call returns the wrapper —
and hence the engine state — unchanged. -/
theorem mutation_entry_points_rejected (w : VKVizEngine) (cv : Bool)
    (hinit : w.core.state.initialized = true)
    (hrun : w.core.state.running = true) :
    VKViz_SetRenderer (some w) cv = (.errorAlreadyInitialized, some w) ∧
    VKViz_Run (some w) = (.errorRunLoopActive, some w) ∧
    VKVizResult.errorAlreadyInitialized ≠ VKVizResult.errorRunLoopActive := by
  refine ⟨?_, ?_, by decide⟩ <;>
    simp [VKViz_SetRenderer, VKViz_Run, hinit, hrun]

/-- C8 witness. -/
theorem mutation_entry_points_rejected_witness :
    VKViz_SetRenderer
        (some { core := { state := { initialized := true, running := true } } })
        true
      = (.errorAlreadyInitialized,
         some { core := { state := { initialized := true, running := true } } }) ∧
    VKViz_Run
        (some { core := { state := { initialized := true, running := true } } })
      = (.errorRunLoopActive,
         some { core := { state := { initialized := true, running := true } } }) ∧
    VKVizResult.errorAlreadyInitialized ≠ VKVizResult.errorRunLoopActive :=
  mutation_entry_points_rejected
    { core := { state := { initialized := true, running := true } } } true
    rfl rfl

/-- Helper: `end_frame` with a clean present submits, stores the new
counter in the slot, and leaves `resize_requested` alone. -/
theorem end_frame_success (e : Engine) (idx : Nat) :
    end_frame e idx .success =
      .ok ([Action.endCommandBuffer,
            Action.queueSubmit ((e.timeline_value + 1) % UINT64_MOD),
            Action.present idx],
           { e with
             timeline_value := (e.timeline_value + 1) % UINT64_MOD,
             frames := e.frames.set (currentSlot e)
               { e.frames.get (currentSlot e) with
                 submitted_timeline_value :=
                   (e.timeline_value + 1) % UINT64_MOD } }) := by
  simp [end_frame, currentSlot]

/-- C10: `run()` entry forces both `running` and `should_rendering` to
true regardless of their previous values; consequently a caller that
cleared `should_rendering` before `run()` still gets the rendering path
(the swapchain acquire happens) on the first iteration, while a
subsequent minimize event clears `should_rendering` again. -/
theorem run_entry_forces_flags (e : Engine) (o : IterOracle)
    (hev : o.events = [])
    (hrr : e.state.resize_requested = false)
    (hacq : o.acqResult = .success)
    (hcmd : (e.frames.get (currentSlot e)).mainCommandBuffer ≠ 0)
    (hpres : o.presResult = .success) :
    (run_entry e).state.running = true ∧
    (run_entry e).state.should_rendering = true ∧
    (∃ tr e1, run_iteration (run_entry e) o = .ok (tr, e1) ∧
       Action.acquireNextImage ∈ tr) ∧
    (∀ s : EngineState,
       (processEvent s .windowMinimized).should_rendering = false) := by
  have hflags : (run_entry e).state.running = true ∧
      (run_entry e).state.should_rendering = true ∧
      (run_entry e).state.resize_requested = e.state.resize_requested ∧
      (run_entry e).frames = e.frames ∧
      (run_entry e).state.frame_number = e.state.frame_number := by
    unfold run_entry
    by_cases h1 : e.state.running <;> by_cases h2 : e.state.should_rendering <;>
      simp [h1, h2]
  obtain ⟨hf1, hf2, hf3, hf4, hf5⟩ := hflags
  refine ⟨hf1, hf2, ?_, fun s => rfl⟩
  have hrr' : (run_entry e).state.resize_requested = false := hf3.trans hrr
  have hpath := run_iteration_render_path (run_entry e) o hev hf2 hrr'
  set er : Engine := run_entry e with her
  set etime : Engine :=
    { er with state := { er.state with dt_sec := o.dt, time_sec := o.time } }
    with hetime
  have hcmd' : ¬ ((er.frames.get (currentSlot etime)).mainCommandBuffer = 0) := by
    have hm : etime.state.frame_number = e.state.frame_number := by
      rw [hetime]; exact hf5
    simp only [currentSlot, hm, hf4, hf5]
    exact hcmd
  have hbe := begin_frame_success etime o.acqImageIndex
  have hef := end_frame_success etime o.acqImageIndex
  rw [hpath]
  unfold frame_body
  rw [hacq, hbe, except_bind_ok]
  dsimp only
  rw [if_neg hcmd', hpres, hef, except_bind_ok]
  dsimp only
  refine ⟨_, _, rfl, ?_⟩
  simp [List.mem_append]

/-- A fully initialised engine with a live swapchain, used by witnesses. -/
def liveSwapchain : SwapchainSystem where
  swapchain := 1
  swapchain_image_format := .b8g8r8a8Unorm
  swapchain_extent := ⟨800, 600⟩
  swapchain_images := [7, 8, 9]
  swapchain_image_views := [17, 18, 19]
  drawable_image := { image := 3, imageView := 4, extentW := 800,
                      extentH := 600, format := .r16g16b16a16Sfloat }
  depth_image := { image := 5, imageView := 6, extentW := 800,
                   extentH := 600, format := .d32Sfloat }

/-- A running engine mid-loop, used by witnesses. -/
def liveEngine : Engine where
  state := { initialized := true, running := true, should_rendering := true }
  swapchain := liveSwapchain
  frames := ⟨{ mainCommandBuffer := 11 }, { mainCommandBuffer := 12 }⟩

/-- An initialised engine whose caller cleared `should_rendering` before
calling `run()`, used by the C10 witness. -/
def preRunEngine : Engine where
  state := { initialized := true, running := false, should_rendering := false }
  swapchain := liveSwapchain
  frames := ⟨{ mainCommandBuffer := 11 }, { mainCommandBuffer := 12 }⟩

/-- C3 witness. -/
theorem acquire_outdated_skips_frame_witness :
    liveEngine.state.should_rendering = true ∧
    liveEngine.state.resize_requested = false ∧
    (∃ tr e', run_iteration liveEngine { acqResult := .errorOutOfDateKHR }
        = .ok (tr, e') ∧
       Action.rendererUpdate ∉ tr ∧
       Action.recordGraphics ∉ tr ∧
       Action.blitOffscreenToSwapchain ∉ tr ∧
       (∀ v, Action.queueSubmit v ∉ tr) ∧
       (∀ i, Action.present i ∉ tr) ∧
       e'.state.frame_number = liveEngine.state.frame_number) :=
  ⟨rfl, rfl,
   (acquire_outdated_skips_frame liveEngine { acqResult := .errorOutOfDateKHR }
      rfl rfl rfl (Or.inl rfl)).2.1⟩

/-- C4 witness. -/
theorem present_outdated_still_increments_witness :
    (liveEngine.frames.get (currentSlot liveEngine)).mainCommandBuffer ≠ 0 ∧
    (∃ tr e', run_iteration liveEngine { presResult := .suboptimalKHR }
        = .ok (tr, e') ∧
       Action.queueSubmit ((liveEngine.timeline_value + 1) % UINT64_MOD) ∈ tr ∧
       Action.present 0 ∈ tr ∧
       e'.state.resize_requested = true ∧
       e'.state.frame_number
         = (liveEngine.state.frame_number + 1) % UINT64_MOD) :=
  ⟨by decide,
   present_outdated_still_increments liveEngine { presResult := .suboptimalKHR }
     rfl rfl rfl rfl (by decide) (Or.inr rfl)⟩

/-- C5 witness. -/
theorem recreate_swapchain_exact_sequence_witness :
    (recreate_swapchain liveEngine 400 300 {}).1 =
      [Action.notifySwapchainDestroy, Action.deviceWaitIdle]
        ++ (destroy_swapchain liveEngine).1
        ++ (destroy_offscreen_drawable (destroy_swapchain liveEngine).2).1
        ++ [Action.querySurfaceSize (max 1 (400 : Int)).toNat
              (max 1 (300 : Int)).toNat,
            Action.createSwapchainAction (max 1 (400 : Int)).toNat
              (max 1 (300 : Int)).toNat,
            Action.createOffscreenAction (max 1 (400 : Int)).toNat
              (max 1 (300 : Int)).toNat,
            Action.notifySwapchainReady,
            Action.uiSetMinImageCount ({} : SwapchainOracle).images.length,
            Action.clearResizeRequested] ∧
    (recreate_swapchain liveEngine 400 300 {}).2.state.resize_requested
      = false :=
  recreate_swapchain_exact_sequence liveEngine 400 300 {} rfl rfl rfl

/-- C7 witness (degenerate 0×0 surface clamped to 1×1). -/
theorem recreate_offscreen_matches_swapchain_extent_witness :
    (recreate_swapchain liveEngine 0 0
        { builtExtent := ⟨1, 1⟩ }).2.swapchain.drawable_image.extentW
      = (recreate_swapchain liveEngine 0 0
          { builtExtent := ⟨1, 1⟩ }).2.swapchain.swapchain_extent.width ∧
    (recreate_swapchain liveEngine 0 0
        { builtExtent := ⟨1, 1⟩ }).2.swapchain.drawable_image.extentH
      = (recreate_swapchain liveEngine 0 0
          { builtExtent := ⟨1, 1⟩ }).2.swapchain.swapchain_extent.height ∧
    (recreate_swapchain liveEngine 0 0
        { builtExtent := ⟨1, 1⟩ }).2.swapchain.depth_image.extentW
      = (recreate_swapchain liveEngine 0 0
          { builtExtent := ⟨1, 1⟩ }).2.swapchain.swapchain_extent.width ∧
    (recreate_swapchain liveEngine 0 0
        { builtExtent := ⟨1, 1⟩ }).2.swapchain.depth_image.extentH
      = (recreate_swapchain liveEngine 0 0
          { builtExtent := ⟨1, 1⟩ }).2.swapchain.swapchain_extent.height ∧
    (recreate_swapchain liveEngine 0 0
        { builtExtent := ⟨1, 1⟩ }).2.swapchain.swapchain_extent
      = ⟨(max 1 (0 : Int)).toNat, (max 1 (0 : Int)).toNat⟩ :=
  recreate_offscreen_matches_swapchain_extent liveEngine 0 0
    { builtExtent := ⟨1, 1⟩ } rfl (by decide)

/-- C10 witness. -/
theorem run_entry_forces_flags_witness :
    (run_entry preRunEngine).state.running = true ∧
    (run_entry preRunEngine).state.should_rendering = true ∧
    (∃ tr e1, run_iteration (run_entry preRunEngine) {} = .ok (tr, e1) ∧
       Action.acquireNextImage ∈ tr) ∧
    (∀ s : EngineState,
       (processEvent s .windowMinimized).should_rendering = false) :=
  run_entry_forces_flags preRunEngine {} rfl rfl rfl (by decide) rfl

end VkViz
